import Mathlib

/-!
Shallow embedding of the Campaign-tracker repository (src/app.py, the Flask
request-handler shape, and src/streamlit_app.py, the reactive shape) and
verification of the frozen claims about it.

The MongoDB collection is modelled as a list of documents; `insert_one`,
`update_one`, `delete_one` and `find` are modelled with their single-document
semantics (`update_one`/`delete_one` affect the first matching document).
`ObjectId(id)` raises `bson.errors.InvalidId` on a string that is not 24 hex
characters; a valid hex string is normalised to lower case.
-/

namespace CampaignTracker

/-- A document of the `campaigns` collection: the store-assigned `_id` plus the
four fields written by `add_campaign` / `add_campaign_ui`.  In the Flask shape
`request.form.get` yields `None` for an absent field, hence `Option String`. -/
structure Campaign where
  id : String
  name : Option String
  client : Option String
  startDate : Option String
  status : Option String
  deriving DecidableEq, Repr

abbrev Store := List Campaign

/-- The `_id` values present in the collection. -/
def ids (s : Store) : List String := s.map Campaign.id

/-! ## Connection Manager (src/app.py lines 19-82) -/

/-- Truthiness of an optional environment/config string in Python:
`None` and `""` are falsy. -/
def truthy : Option String → Bool
  | none => false
  | some s => s != ""

/-- ASCII lower-casing of one character, as Python `str.lower` acts on the
ASCII environment values involved here. -/
def lowerChar (c : Char) : Char :=
  if 'A' ≤ c && c ≤ 'Z' then Char.ofNat (c.toNat + 32) else c

/-- Python `s.lower()` (ASCII range), written over the character list so the
kernel can evaluate it. -/
def lowerString (s : String) : String := String.mk (s.data.map lowerChar)

/-- Python `x or d` for an optional string `x`: falsy (`None` or `""`) falls
back to `d`. -/
def pyOr (o : Option String) (d : String) : String :=
  match o with
  | none => d
  | some e => if e = "" then d else e

/-- Outcome of the `PyMongo(app)` construction attempted inside
`try_init_mongo_once`: success with a usable `.db`, success with `.db`
missing, or a raised exception (whose `repr` is captured). -/
inductive PyMongoOutcome where
  | okWithDb
  | okNoDb
  | raised (msg : String)
  deriving DecidableEq, Repr

/-- The environment `try_init_mongo_once` reads: `app.config.get("MONGO_URI")`
and the behaviour of the underlying PyMongo construction. -/
structure InitEnv where
  configUri : Option String
  pymongo : PyMongoOutcome
  deriving Repr

/-- The module-level mutable state of src/app.py: `mongo`,
`mongo_init_error`, `mongo_init_attempted`.  The handle itself is opaque. -/
structure InitState where
  mongo : Option Unit
  mongoInitError : Option String
  mongoInitAttempted : Bool
  deriving DecidableEq, Repr

/-- The state at process start: `mongo = None`, `mongo_init_error = None`,
`mongo_init_attempted = False` (src/app.py lines 33-35). -/
def initialInitState : InitState := ⟨none, none, false⟩

/-- src/app.py `try_init_mongo_once` (lines 37-72): returns immediately when
an attempt was already made; otherwise marks the attempt and either records
`"MONGO_URI not set"`, or performs the PyMongo construction and records its
outcome.  Assignments mirror the source: the no-URI branch leaves `mongo`
untouched, the success branch leaves `mongo_init_error` untouched. -/
def tryInitMongoOnce (env : InitEnv) (s : InitState) : InitState :=
  if s.mongoInitAttempted then s
  else
    if truthy env.configUri = false then
      { s with mongoInitAttempted := true, mongoInitError := some "MONGO_URI not set" }
    else
      match env.pymongo with
      | .okWithDb => { s with mongoInitAttempted := true, mongo := some () }
      | .okNoDb =>
          { s with mongoInitAttempted := true, mongo := none,
                   mongoInitError := some "PyMongo initialized but .db missing" }
      | .raised msg =>
          { s with mongoInitAttempted := true, mongo := none, mongoInitError := some msg }

/-- src/app.py `get_mongo` (lines 74-76): run the one-shot initialization and
return the (possibly `None`) handle together with the new module state. -/
def getMongo (env : InitEnv) (s : InitState) : InitState × Option Unit :=
  let s2 := tryInitMongoOnce env s
  (s2, s2.mongo)

/-- src/app.py `get_collection` (lines 78-82): raises
`RuntimeError("Mongo not initialized: " + (mongo_init_error or "unknown"))`
when the handle is `None`, else yields the `campaigns` collection (opaque). -/
def getCollection (env : InitEnv) (s : InitState) : InitState × Except String Unit :=
  let s2 := tryInitMongoOnce env s
  match s2.mongo with
  | none => (s2, Except.error ("Mongo not initialized: " ++ pyOr s2.mongoInitError "unknown"))
  | some _ => (s2, Except.ok ())

/-! ## Environment handling (src/app.py lines 19-28, src/streamlit_app.py line 10) -/

/-- The process environment read at startup: `os.environ.get("MONGO_URI")`
and `os.environ.get("FLASK_ENV")`. -/
structure OsEnv where
  mongoUri : Option String
  flaskEnv : Option String
  deriving Repr

/-- src/app.py lines 19-21: `MONGO_URI = os.environ.get("MONGO_URI")`; if that
is falsy and `os.environ.get("FLASK_ENV", "").lower() == "development"`, the
hardcoded localhost fallback is used. -/
def flaskMongoUri (e : OsEnv) : Option String :=
  if truthy e.mongoUri = false && lowerString (e.flaskEnv.getD "") == "development" then
    some "mongodb://localhost:27017/campaign_db"
  else
    e.mongoUri

/-- src/app.py lines 23-28: `app.config["MONGO_URI"]` is set only when the
resolved `MONGO_URI` is truthy; otherwise the config key stays absent. -/
def flaskConfigUri (e : OsEnv) : Option String :=
  let m := flaskMongoUri e
  if truthy m then m else none

/-- src/streamlit_app.py `get_db_collection` (lines 8-12): the connection
string handed to `MongoClient` is the hardcoded literal, for every process
environment — no environment variable is consulted. -/
def streamlitConnectionString (e : OsEnv) : String :=
  "mongodb://localhost:27017/"

/-- src/streamlit_app.py `get_db_collection` models the resource cost of each
call: every call constructs a fresh `MongoClient` (there is no cache or guard),
so the count of connection attempts made so far increases by one; the returned
collection handle is opaque. -/
def getDbCollection (attempts : Nat) : Nat × Unit :=
  (attempts + 1, ())

/-- The claim's memoization property for a connection accessor: a subsequent
call observes the cached outcome and makes no further connection attempt. -/
def memoizedOnce (f : Nat → Nat × Unit) : Prop :=
  ∀ n : Nat, (f (f n).1).1 = (f n).1

/-! ## Record Repository: the four collection operations -/

/-- `ObjectId(id)` for a string argument: accepts exactly 24 hexadecimal
characters, else raises `bson.errors.InvalidId`. -/
def isHexChar (c : Char) : Bool :=
  c.isDigit || ('a' ≤ c && c ≤ 'f') || ('A' ≤ c && c ≤ 'F')

/-- Syntactic well-formedness of a string identifier for `ObjectId`. -/
def isValidObjectId (s : String) : Bool :=
  s.length == 24 && s.data.all isHexChar

/-- `ObjectId(id)`: `none` models the raised `InvalidId`; a valid hex string
is normalised to lower case (two hex spellings compare equal as ObjectIds). -/
def objectIdOfString (s : String) : Option String :=
  if isValidObjectId s then some (lowerString s) else none

/-- The `str(e)` of the `bson.errors.InvalidId` raised by `ObjectId(id)`. -/
def invalidObjectIdMessage (idStr : String) : String :=
  "'" ++ idStr ++ "' is not a valid ObjectId, it must be a 12-byte input or a 24-character hex string"

/-- `coll.insert_one(doc)`: appends the new document. -/
def insertOne (c : Campaign) (s : Store) : Store := s ++ [c]

/-- `coll.update_one({'_id': oid}, {'$set': {'status': ns}})`: sets the
`status` field of the first document whose `_id` equals `oid`; zero matches
modify nothing and raise nothing. -/
def updateOneStatus (oid : String) (ns : Option String) : Store → Store
  | [] => []
  | r :: rs =>
      if r.id = oid then { r with status := ns } :: rs
      else r :: updateOneStatus oid ns rs

/-- `coll.delete_one({'_id': oid})`: removes the first document whose `_id`
equals `oid`; zero matches remove nothing and raise nothing. -/
def deleteOne (oid : String) : Store → Store
  | [] => []
  | r :: rs => if r.id = oid then rs else r :: deleteOne oid rs

/-- `coll.find()`: the whole population, store order. -/
def findAll (s : Store) : List Campaign := s

/-- `coll.find({'status': f})`: exact match on the `status` field. -/
def findByStatus (f : String) (s : Store) : List Campaign :=
  s.filter (fun c => c.status == some f)

/-- src/app.py `report` lines 215-220: `request.form.get('status_filter',
'All')` (absent means `"All"`), then no filter for `"All"`, else the
exact-match `status` filter. -/
def reportQuery (statusFilter : Option String) (s : Store) : List Campaign :=
  let f := statusFilter.getD "All"
  if f = "All" then findAll s else findByStatus f s

/-! ## Presentation Layer, request-handler shape (src/app.py routes) -/

/-- The observable outcome of a Flask route: a redirect to an endpoint, a
JSON error body with an HTTP status code, or a rendered template carrying the
queried documents. -/
inductive Response where
  | redirect (endpoint : String)
  | errorJson (msg : String) (code : Nat)
  | campaignsTable (rows : List Campaign)
  | reportPage (rows : List Campaign) (currentFilter : String)
  deriving DecidableEq, Repr

/-- The `jsonify({"error": "Database not available: " + str(e)}), 500`
response every route returns when `get_collection` raises. -/
def dbUnavailable (e : String) : Response :=
  Response.errorJson ("Database not available: " ++ e) 500

/-- The form fields read by `add_campaign`; `request.form.get` yields `None`
for an absent field. -/
structure AddForm where
  name : Option String
  client : Option String
  startDate : Option String
  status : Option String
  deriving Repr

/-- src/app.py `/campaigns` (lines 121-136). -/
def tableRoute (conn : Except String Unit) (s : Store) : Response × Store :=
  match conn with
  | .error e => (dbUnavailable e, s)
  | .ok _ => (Response.campaignsTable (findAll s), s)

/-- src/app.py `/add` (lines 138-163): inserts the four form fields verbatim;
`newId` is the `_id` the store assigns to the inserted document. -/
def addCampaignRoute (conn : Except String Unit) (form : AddForm) (newId : String)
    (s : Store) : Response × Store :=
  match conn with
  | .error e => (dbUnavailable e, s)
  | .ok _ =>
      (Response.redirect "table",
       insertOne ⟨newId, form.name, form.client, form.startDate, form.status⟩ s)

/-- src/app.py `/delete/<id>` (lines 165-181): `ObjectId(id)` is evaluated
before `delete_one` is invoked, so a malformed id raises `InvalidId` inside
the `try` and the store is never called; the handler answers with the
exception text and HTTP 500. -/
def deleteCampaignRoute (conn : Except String Unit) (idStr : String)
    (s : Store) : Response × Store :=
  match conn with
  | .error e => (dbUnavailable e, s)
  | .ok _ =>
      match objectIdOfString idStr with
      | none => (Response.errorJson (invalidObjectIdMessage idStr) 500, s)
      | some oid => (Response.redirect "table", deleteOne oid s)

/-- src/app.py `/update/<id>` (lines 183-203): same identifier handling as
delete, then `update_one` with a `$set` on `status`. -/
def updateCampaignRoute (conn : Except String Unit) (idStr : String)
    (newStatus : Option String) (s : Store) : Response × Store :=
  match conn with
  | .error e => (dbUnavailable e, s)
  | .ok _ =>
      match objectIdOfString idStr with
      | none => (Response.errorJson (invalidObjectIdMessage idStr) 500, s)
      | some oid => (Response.redirect "table", updateOneStatus oid newStatus s)

/-- src/app.py `/report` (lines 205-226). -/
def reportRoute (conn : Except String Unit) (statusFilter : Option String)
    (s : Store) : Response × Store :=
  match conn with
  | .error e => (dbUnavailable e, s)
  | .ok _ => (Response.reportPage (reportQuery statusFilter s) (statusFilter.getD "All"), s)

/-! ## Presentation Layer, reactive shape (src/streamlit_app.py) -/

/-- src/streamlit_app.py line 19. -/
def STATUS_OPTIONS : List String := ["Active", "Paused", "Completed"]

/-- src/streamlit_app.py `add_campaign_ui` (lines 22-43): submission is
blocked with a warning when `name` or `client_name` is the empty string
(Python falsiness of `str`); otherwise the document is inserted with the
four fields, `start_date.isoformat()` for the date. -/
def addCampaignUi (name clientName startDateIso status : String) (newId : String)
    (s : Store) : Store :=
  if name = "" || clientName = "" then s
  else insertOne ⟨newId, some name, some clientName, some startDateIso, some status⟩ s

/-- src/streamlit_app.py `report_ui` lines 95-97: `{}` for `"All"`, else the
exact-match `status` query. -/
def reportUiDocs (statusFilter : String) (s : Store) : List Campaign :=
  if statusFilter = "All" then s else s.filter (fun c => c.status == some statusFilter)

/-- The `Status` cell of the report dataframe: `d.get("status", "")`. -/
def statusCell (c : Campaign) : String := c.status.getD ""

/-- src/streamlit_app.py `report_ui` line 118:
`df["Status"].value_counts().reindex(STATUS_OPTIONS, fill_value=0)` — one row
per enumerated status, holding the number of displayed documents whose
`Status` cell equals it (0 when none do); rows for any other value are
dropped by the reindex. -/
def summaryCounts (docs : List Campaign) : List (String × Nat) :=
  STATUS_OPTIONS.map (fun st => (st, docs.countP (fun d => statusCell d == st)))

/-! ## Demo documents used by witnesses -/

def demoActive : Campaign :=
  ⟨"64b000000000000000000001", some "Launch", some "Acme", some "2024-01-01", some "Active"⟩

def demoCompleted : Campaign :=
  ⟨"64b000000000000000000002", some "Brand", some "Globex", some "2024-02-01", some "Completed"⟩

def demoStore : Store := [demoActive, demoCompleted]

/-! ## Claims -/

/-- C1: a syntactically malformed identifier handed to the delete or
update-status route is rejected by the `ObjectId` validation before any store
call is made: the route fails with the `InvalidId` message and HTTP 500 — a
response distinct from every store-failure response `dbUnavailable e` — and
the store is not mutated. -/
theorem invalid_id_rejected_before_store (idStr : String) (ns : Option String) (s : Store)
    (h : isValidObjectId idStr = false) :
    deleteCampaignRoute (Except.ok ()) idStr s
        = (Response.errorJson (invalidObjectIdMessage idStr) 500, s) ∧
    updateCampaignRoute (Except.ok ()) idStr ns s
        = (Response.errorJson (invalidObjectIdMessage idStr) 500, s) ∧
    ∀ e : String, Response.errorJson (invalidObjectIdMessage idStr) 500 ≠ dbUnavailable e := by
  refine ⟨?_, ?_, ?_⟩
  · simp [deleteCampaignRoute, objectIdOfString, h]
  · simp [updateCampaignRoute, objectIdOfString, h]
  · intro e he
    rw [dbUnavailable, Response.errorJson.injEq] at he
    have h2 := congrArg (fun t : String => t.data.head?) he.1
    simp [invalidObjectIdMessage, String.data_append] at h2

/-- C1 witness at the malformed identifier `"xyz"`. -/
theorem invalid_id_rejected_before_store_witness :
    isValidObjectId "xyz" = false ∧
    deleteCampaignRoute (Except.ok ()) "xyz" demoStore
        = (Response.errorJson (invalidObjectIdMessage "xyz") 500, demoStore) :=
  ⟨by decide, (invalid_id_rejected_before_store "xyz" none demoStore (by decide)).1⟩

/-- C3: when no connection string is configured, `get_collection` fails with
the not-configured error and each of the five routes (list, add, delete,
update-status, report) returns the HTTP 500 JSON error response — a value of
`Response`, not a crash — leaving the store untouched. -/
theorem unconfigured_routes_return_500 (po : PyMongoOutcome) (form : AddForm)
    (newId idStr : String) (ns statusFilter : Option String) (s : Store) :
    (getCollection ⟨none, po⟩ initialInitState).2
        = Except.error "Mongo not initialized: MONGO_URI not set" ∧
    tableRoute (getCollection ⟨none, po⟩ initialInitState).2 s
        = (dbUnavailable "Mongo not initialized: MONGO_URI not set", s) ∧
    addCampaignRoute (getCollection ⟨none, po⟩ initialInitState).2 form newId s
        = (dbUnavailable "Mongo not initialized: MONGO_URI not set", s) ∧
    deleteCampaignRoute (getCollection ⟨none, po⟩ initialInitState).2 idStr s
        = (dbUnavailable "Mongo not initialized: MONGO_URI not set", s) ∧
    updateCampaignRoute (getCollection ⟨none, po⟩ initialInitState).2 idStr ns s
        = (dbUnavailable "Mongo not initialized: MONGO_URI not set", s) ∧
    reportRoute (getCollection ⟨none, po⟩ initialInitState).2 statusFilter s
        = (dbUnavailable "Mongo not initialized: MONGO_URI not set", s) := by
  have hconn : (getCollection ⟨none, po⟩ initialInitState).2
      = Except.error "Mongo not initialized: MONGO_URI not set" := by
    simp [getCollection, tryInitMongoOnce, initialInitState, truthy, pyOr]
  refine ⟨hconn, ?_, ?_, ?_, ?_, ?_⟩ <;> rw [hconn] <;> rfl

/-- C4: an absent filter or the sentinel `"All"` applies no filter and
returns the full population, in both the Flask report and the reactive
report; any other filter value returns exactly the records whose `status`
equals that value. -/
theorem report_filter_semantics (s : Store) (f : String) (hf : f ≠ "All") :
    reportQuery none s = s ∧
    reportQuery (some "All") s = s ∧
    reportUiDocs "All" s = s ∧
    (∀ c : Campaign, c ∈ reportQuery (some f) s ↔ c ∈ s ∧ c.status = some f) ∧
    (∀ c : Campaign, c ∈ reportUiDocs f s ↔ c ∈ s ∧ c.status = some f) := by
  refine ⟨rfl, by simp [reportQuery, findAll], by simp [reportUiDocs], ?_, ?_⟩
  · intro c
    simp [reportQuery, findByStatus, hf, List.mem_filter]
  · intro c
    simp [reportUiDocs, hf, List.mem_filter]

/-- C4 witness at the filter `"Completed"` over the demo store. -/
theorem report_filter_semantics_witness :
    ("Completed" ≠ "All") ∧
    (demoCompleted ∈ reportQuery (some "Completed") demoStore ↔
      demoCompleted ∈ demoStore ∧ demoCompleted.status = some "Completed") :=
  ⟨by decide, (report_filter_semantics demoStore "Completed" (by decide)).2.2.2.1 demoCompleted⟩

/-- One call to `try_init_mongo_once` marks the attempt. -/
theorem tryInit_attempted (env : InitEnv) (s : InitState) :
    (tryInitMongoOnce env s).mongoInitAttempted = true := by
  unfold tryInitMongoOnce
  split
  · assumption
  · split
    · rfl
    · cases env.pymongo <;> rfl

/-- Once the attempt flag is set, `try_init_mongo_once` changes nothing. -/
theorem tryInit_stable (env : InitEnv) (s : InitState)
    (h : s.mongoInitAttempted = true) : tryInitMongoOnce env s = s := by
  unfold tryInitMongoOnce
  simp [h]

/-- C2 (amended): in the request-handler shape, initialization is lazy and
memoized exactly once per process: the first `try_init_mongo_once` marks the
attempt, a second run — under any later environment — leaves the state
unchanged (the connected and failed outcomes are terminal), and a later
`get_mongo` observes the cached handle without re-attempting.  The reactive
shape's `get_db_collection` is not memoized: each call constructs a fresh
client (see the counterexample). -/
theorem flask_init_memoized_once (env1 env2 : InitEnv) (s : InitState) :
    (tryInitMongoOnce env1 s).mongoInitAttempted = true ∧
    tryInitMongoOnce env2 (tryInitMongoOnce env1 s) = tryInitMongoOnce env1 s ∧
    (getMongo env2 (getMongo env1 s).1).2 = (getMongo env1 s).2 := by
  have h1 := tryInit_attempted env1 s
  refine ⟨h1, tryInit_stable env2 _ h1, ?_⟩
  simp [getMongo, tryInit_stable env2 _ h1]

/-- C2 counterexample: the reactive shape's `get_db_collection` does not
observe a cached outcome — a second call performs a second client
construction (2 attempts after two calls, not 1). -/
theorem streamlit_connection_not_memoized : ¬ memoizedOnce getDbCollection := by
  intro h
  have h0 := h 0
  simp [getDbCollection] at h0

/-- C8 (amended): in the request-handler shape the connection string comes
from the MONGO_URI environment variable, and the hardcoded localhost fallback
is used exactly when MONGO_URI is falsy and FLASK_ENV lower-cases to
`"development"`; the reactive shape uses its own hardcoded localhost string
for every environment, consulting no environment variable. -/
theorem connection_string_resolution (e : OsEnv) :
    (truthy e.mongoUri = true → flaskMongoUri e = e.mongoUri) ∧
    (truthy e.mongoUri = false → lowerString (e.flaskEnv.getD "") = "development" →
      flaskMongoUri e = some "mongodb://localhost:27017/campaign_db") ∧
    (truthy e.mongoUri = false → lowerString (e.flaskEnv.getD "") ≠ "development" →
      flaskMongoUri e = e.mongoUri) ∧
    streamlitConnectionString e = "mongodb://localhost:27017/" := by
  refine ⟨?_, ?_, ?_, rfl⟩
  · intro ht
    simp [flaskMongoUri, ht]
  · intro ht hd
    simp [flaskMongoUri, ht, hd]
  · intro ht hd
    simp [flaskMongoUri, ht, hd]

/-- C8 witness: the development fallback fires with no MONGO_URI and
FLASK_ENV `"Development"`; a truthy MONGO_URI is used as given. -/
theorem connection_string_resolution_witness :
    flaskMongoUri ⟨none, some "Development"⟩ = some "mongodb://localhost:27017/campaign_db" ∧
    flaskMongoUri ⟨some "mongodb://prod.example/db", none⟩ = some "mongodb://prod.example/db" :=
  ⟨(connection_string_resolution ⟨none, some "Development"⟩).2.1 (by decide) (by decide),
   (connection_string_resolution ⟨some "mongodb://prod.example/db", none⟩).1 (by decide)⟩

/-- C8 counterexample: with MONGO_URI set to a remote string and no
development flag, the reactive shape still connects to the hardcoded
localhost string, not the environment's connection string. -/
theorem streamlit_ignores_environment :
    streamlitConnectionString ⟨some "mongodb://prod.example/db", none⟩
        = "mongodb://localhost:27017/" ∧
    "mongodb://localhost:27017/" ≠ "mongodb://prod.example/db" :=
  ⟨rfl, by decide⟩

/-- `update_one` with no matching `_id` modifies nothing. -/
theorem updateOneStatus_of_not_mem (oid : String) (ns : Option String) :
    ∀ s : Store, oid ∉ ids s → updateOneStatus oid ns s = s := by
  intro s
  induction s with
  | nil => intro _; rfl
  | cons r rs ih =>
      intro h
      simp [ids] at h
      unfold updateOneStatus
      rw [if_neg (fun he => h.1 he.symm), ih]
      simp [ids]
      intro x hx hxe
      exact h.2 x hx hxe

/-- `delete_one` with no matching `_id` removes nothing. -/
theorem deleteOne_of_not_mem (oid : String) :
    ∀ s : Store, oid ∉ ids s → deleteOne oid s = s := by
  intro s
  induction s with
  | nil => intro _; rfl
  | cons r rs ih =>
      intro h
      simp [ids] at h
      unfold deleteOne
      rw [if_neg (fun he => h.1 he.symm), ih]
      simp [ids]
      intro x hx hxe
      exact h.2 x hx hxe

/-- With unique `_id`s, the store after `delete_one oid` contains no `oid`. -/
theorem not_mem_ids_deleteOne (oid : String) :
    ∀ s : Store, (ids s).Nodup → oid ∉ ids (deleteOne oid s) := by
  intro s
  induction s with
  | nil => intro _ h; simp [deleteOne, ids] at h
  | cons r rs ih =>
      intro hnd
      simp [ids] at hnd
      unfold deleteOne
      by_cases hr : r.id = oid
      · rw [if_pos hr]
        simp [ids]
        intro x hx hxe
        exact hnd.1 x hx (hxe.trans hr.symm)
      · rw [if_neg hr]
        simp [ids]
        refine ⟨fun he => hr he.symm, ?_⟩
        have := ih hnd.2
        simpa [ids] using this

/-- With unique `_id`s, `update_one` acts as a pointwise status overwrite on
the matching document and identity elsewhere. -/
theorem updateOneStatus_eq_map (oid : String) (ns : Option String) :
    ∀ s : Store, (ids s).Nodup →
      updateOneStatus oid ns s
        = s.map (fun r => if r.id = oid then { r with status := ns } else r) := by
  intro s
  induction s with
  | nil => intro _; rfl
  | cons r rs ih =>
      intro hnd
      simp [ids] at hnd
      unfold updateOneStatus
      by_cases hr : r.id = oid
      · rw [if_pos hr]
        have hrest : rs.map (fun x => if x.id = oid then { x with status := ns } else x) = rs := by
          have hid : ∀ x ∈ rs, (if x.id = oid then { x with status := ns } else x) = x := by
            intro x hx
            rw [if_neg (fun hxe => hnd.1 x hx (hxe.trans hr.symm))]
          rw [List.map_congr_left hid]
          exact List.map_id rs
        simp [hr, hrest]
      · rw [if_neg hr, ih hnd.2]
        simp [hr]

/-- C5: the add route inserts, for every input (absent fields included),
exactly one document whose four fields are the input verbatim under the
store-assigned fresh id, visible at the end of a subsequent unfiltered list;
there is no server-side validation, and the reactive form is the only place
that blocks a submission — exactly when name or client is empty. -/
theorem add_inserts_verbatim (form : AddForm) (newId : String) (s : Store)
    (hfresh : newId ∉ ids s) :
    addCampaignRoute (Except.ok ()) form newId s
        = (Response.redirect "table",
           s ++ [⟨newId, form.name, form.client, form.startDate, form.status⟩]) ∧
    (⟨newId, form.name, form.client, form.startDate, form.status⟩ : Campaign)
        ∈ findAll (addCampaignRoute (Except.ok ()) form newId s).2 ∧
    (findAll (addCampaignRoute (Except.ok ()) form newId s).2).filter (fun c => c.id == newId)
        = [⟨newId, form.name, form.client, form.startDate, form.status⟩] ∧
    (∀ clientName startDateIso status newId2 t,
        addCampaignUi "" clientName startDateIso status newId2 t = t) ∧
    (∀ name startDateIso status newId2 t,
        addCampaignUi name "" startDateIso status newId2 t = t) ∧
    (∀ name clientName startDateIso status newId2 t, name ≠ "" → clientName ≠ "" →
        addCampaignUi name clientName startDateIso status newId2 t
          = t ++ [⟨newId2, some name, some clientName, some startDateIso, some status⟩]) := by
  have hnil : s.filter (fun c => c.id == newId) = [] := by
    rw [List.filter_eq_nil_iff]
    intro c hc hbeq
    exact hfresh (List.mem_map.mpr ⟨c, hc, by simpa using hbeq⟩)
  refine ⟨rfl, ?_, ?_, ?_, ?_, ?_⟩
  · simp [addCampaignRoute, findAll, insertOne]
  · simp [addCampaignRoute, findAll, insertOne, List.filter_append, hnil]
  · intro clientName startDateIso status newId2 t
    simp [addCampaignUi]
  · intro name startDateIso status newId2 t
    simp [addCampaignUi]
  · intro name clientName startDateIso status newId2 t hn hc
    simp [addCampaignUi, hn, hc, insertOne]

/-- C5 witness: a concrete insert with a fresh id over the demo store. -/
theorem add_inserts_verbatim_witness :
    ("64b000000000000000000009" ∉ ids demoStore) ∧
    addCampaignRoute (Except.ok ())
        ⟨some "Launch", some "Acme", some "2024-01-01", some "Active"⟩
        "64b000000000000000000009" demoStore
      = (Response.redirect "table",
         demoStore ++ [⟨"64b000000000000000000009",
            some "Launch", some "Acme", some "2024-01-01", some "Active"⟩]) :=
  ⟨by decide,
   (add_inserts_verbatim ⟨some "Launch", some "Acme", some "2024-01-01", some "Active"⟩
      "64b000000000000000000009" demoStore (by decide)).1⟩

/-- C6: with unique ids, update-status is a pointwise frame-preserving
overwrite: the store maps each document to itself except the one matching
the id, whose status alone becomes the new value; length is preserved, every
non-matching document survives unchanged, and the matching document keeps
its id, name, client and startDate. -/
theorem update_status_frame (s : Store) (oid : String) (ns : Option String)
    (hnd : (ids s).Nodup) :
    updateOneStatus oid ns s
        = s.map (fun r => if r.id = oid then { r with status := ns } else r) ∧
    (updateOneStatus oid ns s).length = s.length ∧
    (∀ r ∈ s, r.id ≠ oid → r ∈ updateOneStatus oid ns s) ∧
    (∀ r ∈ s, r.id = oid →
        ({ r with status := ns } : Campaign) ∈ updateOneStatus oid ns s ∧
        ({ r with status := ns } : Campaign).id = r.id ∧
        ({ r with status := ns } : Campaign).name = r.name ∧
        ({ r with status := ns } : Campaign).client = r.client ∧
        ({ r with status := ns } : Campaign).startDate = r.startDate ∧
        ({ r with status := ns } : Campaign).status = ns) := by
  have hmap := updateOneStatus_eq_map oid ns s hnd
  refine ⟨hmap, by rw [hmap, List.length_map], ?_, ?_⟩
  · intro r hr hne
    rw [hmap]
    exact List.mem_map.mpr ⟨r, hr, by simp [hne]⟩
  · intro r hr he
    refine ⟨?_, rfl, rfl, rfl, rfl, rfl⟩
    rw [hmap]
    exact List.mem_map.mpr ⟨r, hr, by simp [he]⟩

/-- C6 witness: pausing the first demo campaign changes only its status. -/
theorem update_status_frame_witness :
    (ids demoStore).Nodup ∧
    updateOneStatus "64b000000000000000000001" (some "Paused") demoStore
      = demoStore.map (fun r =>
          if r.id = "64b000000000000000000001" then { r with status := some "Paused" } else r) :=
  ⟨by decide,
   (update_status_frame demoStore "64b000000000000000000001" (some "Paused") (by decide)).1⟩

/-- C7: a syntactically valid id matching no document makes the delete and
update-status routes succeed silently — a redirect, the store unchanged; and
with unique ids a second delete of the same id succeeds as an idempotent
no-op on the once-deleted store. -/
theorem missing_id_silent_success (s : Store) (idStr : String) (ns : Option String)
    (hv : isValidObjectId idStr = true) :
    (lowerString idStr ∉ ids s →
      deleteCampaignRoute (Except.ok ()) idStr s = (Response.redirect "table", s) ∧
      updateCampaignRoute (Except.ok ()) idStr ns s = (Response.redirect "table", s)) ∧
    ((ids s).Nodup →
      deleteCampaignRoute (Except.ok ()) idStr (deleteCampaignRoute (Except.ok ()) idStr s).2
        = (Response.redirect "table", (deleteCampaignRoute (Except.ok ()) idStr s).2)) := by
  have hobj : objectIdOfString idStr = some (lowerString idStr) := by
    simp [objectIdOfString, hv]
  constructor
  · intro hmem
    constructor
    · simp [deleteCampaignRoute, hobj, deleteOne_of_not_mem _ _ hmem]
    · simp [updateCampaignRoute, hobj, updateOneStatus_of_not_mem _ _ _ hmem]
  · intro hnd
    have h1 : (deleteCampaignRoute (Except.ok ()) idStr s).2 = deleteOne (lowerString idStr) s := by
      simp [deleteCampaignRoute, hobj]
    rw [h1]
    simp [deleteCampaignRoute, hobj,
      deleteOne_of_not_mem _ _ (not_mem_ids_deleteOne _ _ hnd)]

/-- C7 witness: a valid absent id (upper-case hex, normalised) deletes
nothing and succeeds on the demo store. -/
theorem missing_id_silent_success_witness :
    isValidObjectId "64B000000000000000000003" = true ∧
    deleteCampaignRoute (Except.ok ()) "64B000000000000000000003" demoStore
        = (Response.redirect "table", demoStore) :=
  ⟨by decide,
   ((missing_id_silent_success demoStore "64B000000000000000000003" none
      (by decide)).1 (by decide)).1⟩

/-- C9: after `get_mongo` runs from any reachable module state — pristine
when unattempted, satisfying the dichotomy when already attempted — the
attempted flag is set; exactly one of handle-present-with-no-error or
no-handle-with-an-error-message holds; and `get_collection` raises precisely
when the handle is `None`. -/
theorem init_state_dichotomy (env : InitEnv) (s : InitState)
    (h0 : s.mongoInitAttempted = false → s.mongo = none ∧ s.mongoInitError = none)
    (h1 : s.mongoInitAttempted = true →
      (s.mongo ≠ none ∧ s.mongoInitError = none) ∨
      (s.mongo = none ∧ s.mongoInitError ≠ none)) :
    (getMongo env s).1.mongoInitAttempted = true ∧
    (((getMongo env s).1.mongo ≠ none ∧ (getMongo env s).1.mongoInitError = none) ∨
      ((getMongo env s).1.mongo = none ∧ (getMongo env s).1.mongoInitError ≠ none)) ∧
    ((∃ err, (getCollection env s).2 = Except.error err) ↔ (getMongo env s).1.mongo = none) := by
  have hdi : ((tryInitMongoOnce env s).mongo ≠ none ∧
        (tryInitMongoOnce env s).mongoInitError = none) ∨
      ((tryInitMongoOnce env s).mongo = none ∧
        (tryInitMongoOnce env s).mongoInitError ≠ none) := by
    by_cases ha : s.mongoInitAttempted = true
    · rw [tryInit_stable env s ha]
      exact h1 ha
    · have hp := h0 (by simpa using ha)
      unfold tryInitMongoOnce
      rw [if_neg (by simpa using ha)]
      by_cases ht : truthy env.configUri = false
      · rw [if_pos ht]
        right
        simp [hp.1]
      · rw [if_neg ht]
        cases env.pymongo with
        | okWithDb => left; simp [hp.2]
        | okNoDb => right; simp
        | raised msg => right; simp
  have hcoll : (∃ err, (getCollection env s).2 = Except.error err)
      ↔ (tryInitMongoOnce env s).mongo = none := by
    simp only [getCollection]
    cases hm : (tryInitMongoOnce env s).mongo <;> simp [hm]
  exact ⟨tryInit_attempted env s, hdi, hcoll⟩

/-- C9 witness: a successful first initialization from the pristine state. -/
theorem init_state_dichotomy_witness :
    (getMongo ⟨some "mongodb://localhost:27017/campaign_db", PyMongoOutcome.okWithDb⟩
        initialInitState).1.mongoInitAttempted = true ∧
    (getMongo ⟨some "mongodb://localhost:27017/campaign_db", PyMongoOutcome.okWithDb⟩
        initialInitState).1.mongo ≠ none :=
  ⟨(init_state_dichotomy _ initialInitState (by decide) (by decide)).1, by decide⟩

/-- C10: the reactive report's summary rows are exactly the three enumerated
statuses (a status with no documents shows count 0); a document whose status
is any other free-form value appears in the report table under the filter
`"All"` yet leaves every summary count unchanged. -/
theorem summary_counts_only_enumerated (docs : List Campaign) (d : Campaign)
    (h : statusCell d ∉ STATUS_OPTIONS) :
    summaryCounts (d :: docs) = summaryCounts docs ∧
    d ∈ reportUiDocs "All" (d :: docs) ∧
    (summaryCounts docs).map Prod.fst = STATUS_OPTIONS ∧
    summaryCounts [] = [("Active", 0), ("Paused", 0), ("Completed", 0)] := by
  have h3 : statusCell d ≠ "Active" ∧ statusCell d ≠ "Paused" ∧ statusCell d ≠ "Completed" := by
    simpa [STATUS_OPTIONS] using h
  refine ⟨?_, ?_, rfl, rfl⟩
  · simp [summaryCounts, STATUS_OPTIONS, List.countP_cons, h3.1, h3.2.1, h3.2.2]
  · simp [reportUiDocs]

/-- C10 witness: a campaign with the free-form status `"Archived"` is listed
under `"All"` but changes no summary count. -/
theorem summary_counts_only_enumerated_witness :
    statusCell ⟨"64b000000000000000000004", some "Old", some "Initech",
        some "2023-01-01", some "Archived"⟩ ∉ STATUS_OPTIONS ∧
    summaryCounts [⟨"64b000000000000000000004", some "Old", some "Initech",
        some "2023-01-01", some "Archived"⟩] = summaryCounts [] :=
  ⟨by decide,
   (summary_counts_only_enumerated []
      ⟨"64b000000000000000000004", some "Old", some "Initech",
        some "2023-01-01", some "Archived"⟩ (by decide)).1⟩

end CampaignTracker
